import Mathlib

/-
Verification of the iOS asset generator (src/src/platforms/ios/index.ts) of
houseninjadojo/capacitor-assets against its natural-language specification.

The generator is embedded shallowly: the file-system side effects of one
`generate` call are recorded as an ordered trace of effects (image writes,
tagged with the image handle that produced the pixels, and manifest writes),
and thrown errors become an `Except` result.  JavaScript numbers are modelled
as exact rationals (widths as integers), and JavaScript string truthiness is
modelled explicitly.  The manifest merge `updateContentsJsonDark` is embedded
as a pure transform on parsed manifests.
-/

namespace CapacitorAssets

/-- Modelled from the spec: the `AssetKind` enum lives in src/definitions.ts,
which is not under src/.  Spec §3 lists the eight kinds this generator handles;
`other` stands for any further catalog kind, which spec §4.1 says the generator
must ignore ("forward compatibility for catalog kinds this generator does not
yet handle"). -/
inductive AssetKind where
  | logo
  | logoDark
  | icon
  | notificationIcon
  | settingsIcon
  | spotlightIcon
  | splash
  | splashDark
  | other (tag : Nat)
deriving DecidableEq, Repr

/-- Modelled from the spec: an output template record (the catalog in
src/platforms/ios/assets.ts is not under src/).  Spec §3: kind, target pixel
width/height, output file name, optional scale factor. -/
structure IosOutputAssetTemplate where
  kind : AssetKind
  name : String
  width : Option Int
  height : Option Int
  scale : Option Int
deriving DecidableEq, Repr

/-- Modelled from the spec: an input asset as consumed by the generator
(src/input-asset.ts is not under src/).  Spec §3/§6: file path, optional probed
pixel dimensions, kind, and a lazily created sharp handle; `hasPipeline` records
whether `asset.pipeline()` returns that handle. -/
structure InputAsset where
  path : String
  width : Option Int
  height : Option Int
  kind : AssetKind
  hasPipeline : Bool
deriving DecidableEq, Repr

/-- Modelled from the spec: the project handle (src/project.ts is not under
src/) exposes the per-platform base directory `project.config.ios?.path`
(spec §6). -/
structure Project where
  iosPath : Option String
deriving DecidableEq, Repr

/-- Modelled from the spec: the generator options consumed by this file
(spec §6): `logoSplashScale`, `splashBackgroundColor`,
`splashBackgroundColorDark`.  Numbers are exact rationals. -/
structure AssetGeneratorOptions where
  logoSplashScale : Option ℚ := none
  splashBackgroundColor : Option String := none
  splashBackgroundColorDark : Option String := none
deriving DecidableEq, Repr

/-- One `{appearance, value}` pair of a manifest image entry (spec §3). -/
structure AppearanceEntry where
  appearance : String
  value : String
deriving DecidableEq, Repr

/-- One entry of the manifest `images` list (spec §3/§6); every field may be
absent in the JSON document. -/
structure ImageEntry where
  appearances : Option (List AppearanceEntry) := none
  idiom : Option String := none
  scale : Option String := none
  filename : Option String := none
deriving DecidableEq, Repr

/-- Parsed Contents.json document: the `images` list plus all remaining
top-level fields (for example `info`), kept verbatim as key/value pairs. -/
structure Manifest where
  images : List ImageEntry
  extra : List (String × String) := []
deriving DecidableEq, Repr

/-- Composition of an OutputAsset, as constructed by the generator
(src/output-asset.ts is not under src/; shape from spec §3 and the constructor
calls in the source): the template it realises, the source asset, and the
mapping from logical name to destination path. -/
structure OutputAsset where
  template : IosOutputAssetTemplate
  asset : InputAsset
  destPaths : List (String × String)
deriving DecidableEq, Repr

/-- Image handle used for a file write: the shared `asset.pipeline()` handle,
or a fresh `sharp(path)` instance that re-opens and re-decodes the file. -/
inductive Handle where
  | pipe
  | openPath (path : String)
deriving DecidableEq, Repr

/-- One observable side effect of a generation run, in program order: an image
file write (with the handle providing the source pixels and the resize
arguments) or a rewrite of the splash Contents.json manifest. -/
inductive Effect where
  | writeImage (src : Handle) (dest : String) (resizeW resizeH : Option Int)
  | writeManifest (m : Manifest)
deriving DecidableEq, Repr

/-- Errors thrown by the generator (src/error.ts is not under src/; names from
the import on line 6 and the throw sites). -/
inductive GenError where
  | badProject (msg : String)
  | badPipeline (msg : String)
deriving DecidableEq, Repr

instance {ε α : Type} [DecidableEq ε] [DecidableEq α] : DecidableEq (Except ε α) := fun a b =>
  match a, b with
  | .ok x, .ok y =>
    if h : x = y then .isTrue (by rw [h]) else .isFalse (by simp [h])
  | .error x, .error y =>
    if h : x = y then .isTrue (by rw [h]) else .isFalse (by simp [h])
  | .ok _, .error _ => .isFalse (by simp)
  | .error _, .ok _ => .isFalse (by simp)

/-- Result of one `generate` call: the trace of effects performed before
returning or throwing, and the returned output assets or the thrown error. -/
structure GenOutput where
  effects : List Effect
  result : Except GenError (List OutputAsset)
deriving DecidableEq, Repr

/-- Modelled from the spec: the static data imported from
src/platforms/ios/assets.ts, which is not under src/.  `templates` stands for
`Object.values(IosAssetTemplates)`, `splashLight` for
IOS_2X_UNIVERSAL_ANYANY_SPLASH, `splashDark` for
IOS_2X_UNIVERSAL_ANYANY_SPLASH_DARK (spec §2: the catalog is external static
data).  `contentsJson` is the parsed Contents.json currently on disk, read by
the manifest merge. -/
structure Env where
  options : AssetGeneratorOptions
  templates : List IosOutputAssetTemplate
  splashLight : IosOutputAssetTemplate
  splashDark : IosOutputAssetTemplate
  contentsJson : Manifest
deriving DecidableEq, Repr

/-- JavaScript truthiness of an optional string: `!!s` is false exactly for an
absent value and for the empty string. -/
def strTruthy : Option String → Bool
  | none => false
  | some s => s != ""

/-- Joining of path segments, modelling node `join` on already clean segments. -/
def pathJoin (segs : List String) : String :=
  String.intercalate "/" segs

def IOS_APP_ICON_SET_NAME : String := "AppIcon"

def IOS_APP_ICON_SET_PATH : String :=
  "App/Assets.xcassets/" ++ IOS_APP_ICON_SET_NAME ++ ".appiconset"

def IOS_SPLASH_IMAGE_SET_NAME : String := "Splash"

def IOS_SPLASH_IMAGE_SET_PATH : String :=
  "App/Assets.xcassets/" ++ IOS_SPLASH_IMAGE_SET_NAME ++ ".imageset"

/-- Manifest entry pushed by updateContentsJsonDark (lines 252-262). -/
def darkManifestEntry (template : IosOutputAssetTemplate) : ImageEntry :=
  { appearances := some [⟨"luminosity", "dark"⟩]
    idiom := some "universal"
    scale := some (toString (template.scale.getD 1) ++ "x")
    filename := some template.name }

/-- updateContentsJsonDark (lines 245-267) as a pure transform on the parsed
manifest: keep the entries whose `filename` is truthy, push the dark entry for
`generated.template`, and reassign only the `images` field. -/
def updateContentsJsonDark (generated : OutputAsset) (parsed : Manifest) : Manifest :=
  { parsed with
      images := parsed.images.filter (fun i => strTruthy i.filename) ++
        [darkManifestEntry generated.template] }

/-- Destination of one icon write in _generateIcons (line 156). -/
def iconDest (project : Project) (icon : IosOutputAssetTemplate) : String :=
  pathJoin [project.iosPath.getD "", IOS_APP_ICON_SET_PATH, icon.name]

/-- Effects of the icon fan-out of _generateIcons (line 158): each template is
resized through the shared `pipe` handle and written to its destination. -/
def iconEffects (project : Project) (icons : List IosOutputAssetTemplate) : List Effect :=
  icons.map (fun icon => Effect.writeImage Handle.pipe (iconDest project icon) icon.width icon.height)

/-- Output assets of the icon fan-out of _generateIcons (lines 160-170). -/
def iconOutputs (asset : InputAsset) (project : Project)
    (icons : List IosOutputAssetTemplate) : List OutputAsset :=
  icons.map (fun icon =>
    { template := icon, asset := asset, destPaths := [(icon.name, iconDest project icon)] })

/-- _generateIcons (lines 142-173): fail with BadPipelineError when the sharp
handle is absent, otherwise produce one resized file and one OutputAsset per
template, through the shared handle.  `project.config.ios!.path!` is a
TypeScript non-null assertion, modelled as `getD ""`; generate dispatches here
only after its own null check. -/
def _generateIcons (asset : InputAsset) (project : Project)
    (icons : List IosOutputAssetTemplate) : GenOutput :=
  if asset.hasPipeline = false then
    { effects := [], result := .error (.badPipeline "Sharp instance not created") }
  else
    { effects := iconEffects project icons
      result := .ok (iconOutputs asset project icons) }

/-- Kinds whose templates belong to the icon family derived from a logo
(line 178). -/
def logoFamilyKinds : List AssetKind :=
  [.icon, .notificationIcon, .settingsIcon, .spotlightIcon]

/-- Catalog subset selected by generateIconsForLogo (lines 177-181). -/
def logoFamily (env : Env) : List IosOutputAssetTemplate :=
  env.templates.filter (fun a => logoFamilyKinds.contains a.kind)

/-- generateIconsForLogo (lines 176-184). -/
def generateIconsForLogo (env : Env) (asset : InputAsset) (project : Project) : GenOutput :=
  _generateIcons asset project (logoFamily env)

/-- generateIcons (lines 186-190). -/
def generateIcons (env : Env) (asset : InputAsset) (project : Project) : GenOutput :=
  _generateIcons asset project (env.templates.filter (fun a => a.kind == AssetKind.icon))

/-- generateNotificationIcons (lines 192-196). -/
def generateNotificationIcons (env : Env) (asset : InputAsset) (project : Project) : GenOutput :=
  _generateIcons asset project (env.templates.filter (fun a => a.kind == AssetKind.notificationIcon))

/-- generateSettingsIcons (lines 198-202). -/
def generateSettingsIcons (env : Env) (asset : InputAsset) (project : Project) : GenOutput :=
  _generateIcons asset project (env.templates.filter (fun a => a.kind == AssetKind.settingsIcon))

/-- generateSpotlightIcons (lines 204-208). -/
def generateSpotlightIcons (env : Env) (asset : InputAsset) (project : Project) : GenOutput :=
  _generateIcons asset project (env.templates.filter (fun a => a.kind == AssetKind.spotlightIcon))

/-- Target logo width for the splash composition (lines 67-68):
`Math.floor((asset.width ?? 0) * (options.logoSplashScale ?? 0.2))`. -/
def targetLogoWidth (options : AssetGeneratorOptions) (asset : InputAsset) : Int :=
  ⌊((asset.width.getD 0 : Int) : ℚ) * (options.logoSplashScale.getD 0.2)⌋

/-- Destination of the light splash written by generateFromLogo (line 74). -/
def lightSplashDest (env : Env) (project : Project) : String :=
  pathJoin [project.iosPath.getD "", IOS_SPLASH_IMAGE_SET_PATH, env.splashLight.name]

/-- Destination of the dark splash written by generateFromLogo (line 108). -/
def darkSplashDest (env : Env) (project : Project) : String :=
  pathJoin [project.iosPath.getD "", IOS_SPLASH_IMAGE_SET_PATH, env.splashDark.name]

/-- Light splash OutputAsset of generateFromLogo (lines 90-100); the path map
is keyed by the destination path itself. -/
def lightSplashOutput (env : Env) (asset : InputAsset) (project : Project) : OutputAsset :=
  { template := env.splashLight, asset := asset
    destPaths := [(lightSplashDest env project, lightSplashDest env project)] }

/-- Dark splash OutputAsset of generateFromLogo (lines 123-133). -/
def darkSplashOutput (env : Env) (asset : InputAsset) (project : Project) : OutputAsset :=
  { template := env.splashDark, asset := asset
    destPaths := [(darkSplashDest env project, darkSplashDest env project)] }

/-- generateFromLogo (lines 53-140): check the pipeline handle, derive the full
icon family, then composite the logo onto splash canvases.  The light splash is
produced only for kind Logo (line 70); the dark splash is always produced, and
is then registered in the manifest (line 137).  Both splash resizes read the
source through a fresh `sharp(asset.path)` handle (lines 84 and 117), not
through `pipe`. -/
def generateFromLogo (env : Env) (asset : InputAsset) (project : Project) : GenOutput :=
  if asset.hasPipeline = false then
    { effects := [], result := .error (.badPipeline "Sharp instance not created") }
  else
    match generateIconsForLogo env asset project with
    | { effects := logoEffs, result := .error e } =>
      { effects := logoEffs, result := .error e }
    | { effects := logoEffs, result := .ok logos } =>
      let targetWidth := targetLogoWidth env.options asset
      let lightEffs : List Effect :=
        if asset.kind = AssetKind.logo then
          [Effect.writeImage (Handle.openPath asset.path) (lightSplashDest env project)
            (some targetWidth) none]
        else []
      let lightOuts : List OutputAsset :=
        if asset.kind = AssetKind.logo then [lightSplashOutput env asset project] else []
      let darkOut := darkSplashOutput env asset project
      { effects := logoEffs ++ lightEffs ++
          [Effect.writeImage (Handle.openPath asset.path) (darkSplashDest env project)
            (some targetWidth) none,
           Effect.writeManifest (updateContentsJsonDark darkOut env.contentsJson)]
        result := .ok (logos ++ lightOuts ++ [darkOut]) }

/-- generateSplashes (lines 210-243): direct resize of the input through the
shared handle to the one splash template picked by the kind; only kind
SplashDark triggers the manifest registration (lines 237-240). -/
def generateSplashes (env : Env) (asset : InputAsset) (project : Project) : GenOutput :=
  if asset.hasPipeline = false then
    { effects := [], result := .error (.badPipeline "Sharp instance not created") }
  else
    let assetMeta := if asset.kind = AssetKind.splash then env.splashLight else env.splashDark
    let dest := pathJoin [project.iosPath.getD "", IOS_SPLASH_IMAGE_SET_PATH, assetMeta.name]
    let generated : OutputAsset :=
      { template := assetMeta, asset := asset, destPaths := [(assetMeta.name, dest)] }
    { effects := [Effect.writeImage Handle.pipe dest assetMeta.width assetMeta.height] ++
        (if asset.kind = AssetKind.splashDark then
          [Effect.writeManifest (updateContentsJsonDark generated env.contentsJson)]
        else [])
      result := .ok [generated] }

/-- generate (lines 24-51): throw BadProjectError when the ios directory is not
resolvable (a falsy `project.config.ios?.path`), then dispatch on the asset
kind; the second `case AssetKind.Icon` on line 39 is unreachable, and any kind
outside the switch falls through to `return []`. -/
def generate (env : Env) (asset : InputAsset) (project : Project) : GenOutput :=
  if strTruthy project.iosPath = false then
    { effects := [], result := .error (.badProject "No ios project found") }
  else
    match asset.kind with
    | .logo => generateFromLogo env asset project
    | .logoDark => generateFromLogo env asset project
    | .icon => generateIcons env asset project
    | .notificationIcon => generateNotificationIcons env asset project
    | .settingsIcon => generateSettingsIcons env asset project
    | .spotlightIcon => generateSpotlightIcons env asset project
    | .splash => generateSplashes env asset project
    | .splashDark => generateSplashes env asset project
    | .other _ => { effects := [], result := .ok [] }

/-- Source handle of an effect, when it is an image write. -/
def writeSrc : Effect → Option Handle
  | .writeImage src _ _ _ => some src
  | .writeManifest _ => none

/-- Test for a manifest write effect. -/
def isManifestWrite : Effect → Bool
  | .writeManifest _ => true
  | .writeImage _ _ _ _ => false

/-- Template subset a given input kind selects, stated from the spec (§4.1
dispatch policy and §4.2 splash variants), to be compared against the outputs
of `generate`. -/
def selectedTemplates (env : Env) : AssetKind → List IosOutputAssetTemplate
  | .logo => logoFamily env ++ [env.splashLight, env.splashDark]
  | .logoDark => logoFamily env ++ [env.splashDark]
  | .icon => env.templates.filter (fun a => a.kind == AssetKind.icon)
  | .notificationIcon => env.templates.filter (fun a => a.kind == AssetKind.notificationIcon)
  | .settingsIcon => env.templates.filter (fun a => a.kind == AssetKind.settingsIcon)
  | .spotlightIcon => env.templates.filter (fun a => a.kind == AssetKind.spotlightIcon)
  | .splash => [env.splashLight]
  | .splashDark => [env.splashDark]
  | .other _ => []

/-- Sample icon template, shaped like a catalog entry. -/
def sampleIconTemplate : IosOutputAssetTemplate :=
  { kind := .icon, name := "AppIcon-512@2x.png", width := some 1024, height := some 1024
    scale := some 2 }

/-- Sample light splash template, shaped like IOS_2X_UNIVERSAL_ANYANY_SPLASH. -/
def sampleSplashLight : IosOutputAssetTemplate :=
  { kind := .splash, name := "splash-2732x2732.png", width := some 2732, height := some 2732
    scale := some 2 }

/-- Sample dark splash template, shaped like IOS_2X_UNIVERSAL_ANYANY_SPLASH_DARK. -/
def sampleSplashDark : IosOutputAssetTemplate :=
  { kind := .splashDark, name := "splash-2732x2732-dark.png", width := some 2732
    height := some 2732, scale := some 2 }

/-- Sample well-formed manifest entry. -/
def sampleValidEntry : ImageEntry :=
  { idiom := some "universal", scale := some "2x", filename := some "splash-2732x2732.png" }

/-- Sample malformed manifest entry (empty filename). -/
def sampleMalformedEntry : ImageEntry :=
  { idiom := some "universal", scale := some "2x", filename := some "" }

/-- Sample Contents.json with one valid and one malformed entry plus an extra
top-level field. -/
def sampleManifest : Manifest :=
  { images := [sampleValidEntry, sampleMalformedEntry]
    extra := [("info", "version 1 author xcode")] }

/-- Sample environment with default options and a one-template catalog. -/
def sampleEnv : Env :=
  { options := {}, templates := [sampleIconTemplate], splashLight := sampleSplashLight
    splashDark := sampleSplashDark, contentsJson := sampleManifest }

/-- Sample project with a resolvable ios directory. -/
def sampleProject : Project := { iosPath := some "ios" }

/-- Sample input asset of a chosen kind with a bound pipeline handle. -/
def sampleAsset (kind : AssetKind) : InputAsset :=
  { path := "assets/logo.png", width := some 1024, height := some 1024, kind := kind
    hasPipeline := true }

/-- Sample input asset whose pipeline handle is absent. -/
def sampleAssetNoPipe : InputAsset :=
  { path := "assets/icon.png", width := some 1024, height := some 1024, kind := .icon
    hasPipeline := false }

/-- Sample output asset carrying the dark splash template. -/
def sampleOutputAsset : OutputAsset :=
  { template := sampleSplashDark, asset := sampleAsset .splashDark, destPaths := [] }

theorem strTruthy_iff (o : Option String) :
    strTruthy o = true ↔ o ≠ none ∧ o ≠ some "" := by
  cases o with
  | none => simp [strTruthy]
  | some s => simp [strTruthy]

theorem filter_strTruthy_eq (l : List ImageEntry) :
    l.filter (fun i => strTruthy i.filename) =
      l.filter (fun i => decide (i.filename ≠ none ∧ i.filename ≠ some "")) := by
  apply List.filter_congr
  intro i _
  cases hf : i.filename with
  | none => simp [strTruthy]
  | some s =>
    simp only [strTruthy, bne, ne_eq]
    rw [Bool.eq_iff_iff]
    simp

theorem filter_self_idem {α : Type} (p : α → Bool) (l : List α) :
    (l.filter p).filter p = l.filter p := by
  apply List.filter_eq_self.mpr
  intro a ha
  exact List.of_mem_filter ha

/-- C1: for every manifest holding malformed (absent or empty filename) and
valid entries, updateContentsJsonDark writes back exactly the prior valid
entries, in order, followed by one appended entry with
appearances = [{appearance: luminosity, value: dark}], idiom = universal,
scale = "(template.scale ?? 1)x" and filename = template.name; the malformed
entries are dropped and no valid entry is duplicated or altered. -/
theorem c1_manifest_merge_drops_malformed (g : OutputAsset) (m : Manifest)
    (_hmal : ∃ i ∈ m.images, i.filename = none ∨ i.filename = some "")
    (_hval : ∃ i ∈ m.images, i.filename ≠ none ∧ i.filename ≠ some "") :
    (updateContentsJsonDark g m).images =
      m.images.filter (fun i => decide (i.filename ≠ none ∧ i.filename ≠ some "")) ++
        [{ appearances := some [⟨"luminosity", "dark"⟩]
           idiom := some "universal"
           scale := some (toString (g.template.scale.getD 1) ++ "x")
           filename := some g.template.name }] := by
  unfold updateContentsJsonDark darkManifestEntry
  rw [filter_strTruthy_eq]

/-- Closed instance of the C1 theorem on a concrete two-entry manifest. -/
theorem c1_manifest_merge_drops_malformed_witness :
    (∃ i ∈ sampleManifest.images, i.filename = none ∨ i.filename = some "") ∧
    (∃ i ∈ sampleManifest.images, i.filename ≠ none ∧ i.filename ≠ some "") ∧
    (updateContentsJsonDark sampleOutputAsset sampleManifest).images =
      sampleManifest.images.filter
        (fun i => decide (i.filename ≠ none ∧ i.filename ≠ some "")) ++
        [{ appearances := some [⟨"luminosity", "dark"⟩]
           idiom := some "universal"
           scale := some (toString (sampleOutputAsset.template.scale.getD 1) ++ "x")
           filename := some sampleOutputAsset.template.name }] :=
  ⟨by decide, by decide,
    c1_manifest_merge_drops_malformed sampleOutputAsset sampleManifest (by decide) (by decide)⟩

/-- C5: registration of a dark variant is not idempotent: running
updateContentsJsonDark twice with the same output asset appends the identical
dark entry twice, so the resulting manifest holds two entries with the same
filename; the second run appends instead of replacing. -/
theorem c5_register_twice_duplicates (g : OutputAsset) (m : Manifest)
    (hname : g.template.name ≠ "") :
    (updateContentsJsonDark g (updateContentsJsonDark g m)).images =
      m.images.filter (fun i => strTruthy i.filename) ++
        [darkManifestEntry g.template, darkManifestEntry g.template] ∧
    (darkManifestEntry g.template).filename = some g.template.name := by
  refine ⟨?_, rfl⟩
  unfold updateContentsJsonDark
  rw [List.filter_append, filter_self_idem]
  simp [darkManifestEntry, strTruthy, hname]

/-- Closed instance of the C5 theorem on a concrete manifest. -/
theorem c5_register_twice_duplicates_witness :
    sampleOutputAsset.template.name ≠ "" ∧
    ((updateContentsJsonDark sampleOutputAsset
        (updateContentsJsonDark sampleOutputAsset sampleManifest)).images =
      sampleManifest.images.filter (fun i => strTruthy i.filename) ++
        [darkManifestEntry sampleOutputAsset.template,
         darkManifestEntry sampleOutputAsset.template] ∧
    (darkManifestEntry sampleOutputAsset.template).filename =
      some sampleOutputAsset.template.name) :=
  ⟨by decide, c5_register_twice_duplicates sampleOutputAsset sampleManifest (by decide)⟩

/-- C10: updateContentsJsonDark reassigns only the `images` field: every other
top-level field of the parsed manifest document is preserved with its original
value in the rewritten file. -/
theorem c10_extra_fields_preserved (g : OutputAsset) (m : Manifest) :
    (updateContentsJsonDark g m).extra = m.extra := rfl

theorem generate_logo_eq (env : Env) (asset : InputAsset) (project : Project)
    (hp : asset.hasPipeline = true) (hd : strTruthy project.iosPath = true)
    (hk : asset.kind = AssetKind.logo ∨ asset.kind = AssetKind.logoDark) :
    generate env asset project =
      { effects := iconEffects project (logoFamily env) ++
          (if asset.kind = AssetKind.logo then
            [Effect.writeImage (Handle.openPath asset.path) (lightSplashDest env project)
              (some (targetLogoWidth env.options asset)) none]
          else []) ++
          [Effect.writeImage (Handle.openPath asset.path) (darkSplashDest env project)
            (some (targetLogoWidth env.options asset)) none,
           Effect.writeManifest
             (updateContentsJsonDark (darkSplashOutput env asset project) env.contentsJson)]
        result := .ok (iconOutputs asset project (logoFamily env) ++
          (if asset.kind = AssetKind.logo then [lightSplashOutput env asset project] else []) ++
          [darkSplashOutput env asset project]) } := by
  rcases hk with hk | hk <;>
    simp [generate, hd, hk, generateFromLogo, generateIconsForLogo, _generateIcons, hp]

/-- C2: for every Logo or LogoDark input, generate produces the dark splash
output; the light splash output is produced exactly when the kind is the plain
Logo; and the manifest registration comes right after the dark splash write in
the effect trace, appending a dark-appearance entry. -/
theorem c2_logo_dark_splash (env : Env) (asset : InputAsset) (project : Project)
    (hp : asset.hasPipeline = true) (hd : strTruthy project.iosPath = true)
    (hk : asset.kind = AssetKind.logo ∨ asset.kind = AssetKind.logoDark) :
    (generate env asset project).result =
      .ok (iconOutputs asset project (logoFamily env) ++
        (if asset.kind = AssetKind.logo then [lightSplashOutput env asset project] else []) ++
        [darkSplashOutput env asset project]) ∧
    (generate env asset project).effects =
      iconEffects project (logoFamily env) ++
        (if asset.kind = AssetKind.logo then
          [Effect.writeImage (Handle.openPath asset.path) (lightSplashDest env project)
            (some (targetLogoWidth env.options asset)) none]
        else []) ++
        [Effect.writeImage (Handle.openPath asset.path) (darkSplashDest env project)
          (some (targetLogoWidth env.options asset)) none,
         Effect.writeManifest
           (updateContentsJsonDark (darkSplashOutput env asset project) env.contentsJson)] ∧
    (updateContentsJsonDark (darkSplashOutput env asset project)
        env.contentsJson).images.getLast? = some (darkManifestEntry env.splashDark) ∧
    (darkManifestEntry env.splashDark).appearances =
      some [{ appearance := "luminosity", value := "dark" }] := by
  rw [generate_logo_eq env asset project hp hd hk]
  refine ⟨rfl, rfl, ?_, rfl⟩
  simp [updateContentsJsonDark, darkSplashOutput]

/-- Closed instance of the C2 theorem at a concrete Logo input. -/
theorem c2_logo_dark_splash_witness :
    (sampleAsset AssetKind.logo).hasPipeline = true ∧
    strTruthy sampleProject.iosPath = true ∧
    ((sampleAsset AssetKind.logo).kind = AssetKind.logo ∨
      (sampleAsset AssetKind.logo).kind = AssetKind.logoDark) ∧
    ((generate sampleEnv (sampleAsset AssetKind.logo) sampleProject).result =
      .ok (iconOutputs (sampleAsset AssetKind.logo) sampleProject (logoFamily sampleEnv) ++
        (if (sampleAsset AssetKind.logo).kind = AssetKind.logo then
          [lightSplashOutput sampleEnv (sampleAsset AssetKind.logo) sampleProject]
        else []) ++
        [darkSplashOutput sampleEnv (sampleAsset AssetKind.logo) sampleProject]) ∧
    (generate sampleEnv (sampleAsset AssetKind.logo) sampleProject).effects =
      iconEffects sampleProject (logoFamily sampleEnv) ++
        (if (sampleAsset AssetKind.logo).kind = AssetKind.logo then
          [Effect.writeImage (Handle.openPath (sampleAsset AssetKind.logo).path)
            (lightSplashDest sampleEnv sampleProject)
            (some (targetLogoWidth sampleEnv.options (sampleAsset AssetKind.logo))) none]
        else []) ++
        [Effect.writeImage (Handle.openPath (sampleAsset AssetKind.logo).path)
          (darkSplashDest sampleEnv sampleProject)
          (some (targetLogoWidth sampleEnv.options (sampleAsset AssetKind.logo))) none,
         Effect.writeManifest
           (updateContentsJsonDark
             (darkSplashOutput sampleEnv (sampleAsset AssetKind.logo) sampleProject)
             sampleEnv.contentsJson)] ∧
    (updateContentsJsonDark
        (darkSplashOutput sampleEnv (sampleAsset AssetKind.logo) sampleProject)
        sampleEnv.contentsJson).images.getLast? =
      some (darkManifestEntry sampleEnv.splashDark) ∧
    (darkManifestEntry sampleEnv.splashDark).appearances =
      some [{ appearance := "luminosity", value := "dark" }]) :=
  ⟨rfl, by decide, Or.inl rfl,
    c2_logo_dark_splash sampleEnv (sampleAsset AssetKind.logo) sampleProject rfl
      (by decide) (Or.inl rfl)⟩

/-- C7: for Logo and LogoDark inputs the splash resize uses exactly the target
width floor((asset.width ?? 0) * (logoSplashScale ?? 0.2)); a configured scale
of 0, or an unknown (absent or zero) input width, gives target width 0. -/
theorem c7_target_logo_width_floor (env : Env) (asset : InputAsset) (project : Project)
    (hp : asset.hasPipeline = true) (hd : strTruthy project.iosPath = true)
    (hk : asset.kind = AssetKind.logo ∨ asset.kind = AssetKind.logoDark) :
    (∃ pre m, (generate env asset project).effects =
        pre ++ [Effect.writeImage (Handle.openPath asset.path) (darkSplashDest env project)
          (some (targetLogoWidth env.options asset)) none, Effect.writeManifest m]) ∧
    targetLogoWidth env.options asset =
      ⌊((asset.width.getD 0 : Int) : ℚ) * (env.options.logoSplashScale.getD 0.2)⌋ ∧
    (env.options.logoSplashScale = some 0 → targetLogoWidth env.options asset = 0) ∧
    (asset.width.getD 0 = 0 → targetLogoWidth env.options asset = 0) := by
  refine ⟨?_, rfl, ?_, ?_⟩
  · refine ⟨iconEffects project (logoFamily env) ++
      (if asset.kind = AssetKind.logo then
        [Effect.writeImage (Handle.openPath asset.path) (lightSplashDest env project)
          (some (targetLogoWidth env.options asset)) none]
      else []),
      updateContentsJsonDark (darkSplashOutput env asset project) env.contentsJson, ?_⟩
    rw [generate_logo_eq env asset project hp hd hk]
  · intro h
    simp [targetLogoWidth, h]
  · intro h
    simp [targetLogoWidth, h]

/-- Closed instance of the C7 theorem at a concrete Logo input. -/
theorem c7_target_logo_width_floor_witness :
    (sampleAsset AssetKind.logo).hasPipeline = true ∧
    strTruthy sampleProject.iosPath = true ∧
    ((sampleAsset AssetKind.logo).kind = AssetKind.logo ∨
      (sampleAsset AssetKind.logo).kind = AssetKind.logoDark) ∧
    ((∃ pre m, (generate sampleEnv (sampleAsset AssetKind.logo) sampleProject).effects =
        pre ++ [Effect.writeImage (Handle.openPath (sampleAsset AssetKind.logo).path)
          (darkSplashDest sampleEnv sampleProject)
          (some (targetLogoWidth sampleEnv.options (sampleAsset AssetKind.logo))) none,
          Effect.writeManifest m]) ∧
    targetLogoWidth sampleEnv.options (sampleAsset AssetKind.logo) =
      ⌊(((sampleAsset AssetKind.logo).width.getD 0 : Int) : ℚ) *
        (sampleEnv.options.logoSplashScale.getD 0.2)⌋ ∧
    (sampleEnv.options.logoSplashScale = some 0 →
      targetLogoWidth sampleEnv.options (sampleAsset AssetKind.logo) = 0) ∧
    ((sampleAsset AssetKind.logo).width.getD 0 = 0 →
      targetLogoWidth sampleEnv.options (sampleAsset AssetKind.logo) = 0)) :=
  ⟨rfl, by decide, Or.inl rfl,
    c7_target_logo_width_floor sampleEnv (sampleAsset AssetKind.logo) sampleProject rfl
      (by decide) (Or.inl rfl)⟩

/-- C3 counterexample: at a concrete Logo input, generate performs an image
write whose source pixels come from a fresh handle opened on the asset path
(the source re-opens `sharp(asset.path)` on lines 84 and 117), not from the
shared pipeline handle, refuting the claimed reuse invariant. -/
theorem c3_counterexample_fresh_handle :
    ∃ e ∈ (generate sampleEnv (sampleAsset AssetKind.logo) sampleProject).effects,
      writeSrc e ≠ none ∧ writeSrc e ≠ some Handle.pipe := by
  refine ⟨Effect.writeImage (Handle.openPath (sampleAsset AssetKind.logo).path)
    (darkSplashDest sampleEnv sampleProject)
    (some (targetLogoWidth sampleEnv.options (sampleAsset AssetKind.logo))) none,
    ?_, by simp [writeSrc], by simp [writeSrc]⟩
  rw [generate_logo_eq sampleEnv (sampleAsset AssetKind.logo) sampleProject rfl
    (by decide) (Or.inl rfl)]
  simp

theorem iconEffects_src (project : Project) (icons : List IosOutputAssetTemplate) :
    ∀ e ∈ iconEffects project icons, writeSrc e = some Handle.pipe := by
  intro e he
  simp [iconEffects] at he
  obtain ⟨icon, _, rfl⟩ := he
  rfl

theorem _generateIcons_src (asset : InputAsset) (project : Project)
    (icons : List IosOutputAssetTemplate) :
    ∀ e ∈ (_generateIcons asset project icons).effects,
      writeSrc e = none ∨ writeSrc e = some Handle.pipe := by
  intro e he
  by_cases hp : asset.hasPipeline = false
  · simp [_generateIcons, hp] at he
  · simp [_generateIcons, hp, iconEffects] at he
    obtain ⟨icon, _, rfl⟩ := he
    right
    rfl

theorem generateSplashes_src (env : Env) (asset : InputAsset) (project : Project) :
    ∀ e ∈ (generateSplashes env asset project).effects,
      writeSrc e = none ∨ writeSrc e = some Handle.pipe := by
  intro e he
  by_cases hp : asset.hasPipeline = false
  · simp [generateSplashes, hp] at he
  · by_cases hdk : asset.kind = AssetKind.splashDark <;>
      simp [generateSplashes, hp, hdk] at he
    · rcases he with rfl | rfl
      · right; rfl
      · left; rfl
    · subst he
      right
      rfl

/-- C3 amended: the shared transform handle is reused for every write of the
icon-family batches and of the direct splash resize (Icon, NotificationIcon,
SettingsIcon, SpotlightIcon, Splash, SplashDark kinds); but the logo-to-splash
composition of Logo and LogoDark runs re-opens the source through a fresh
handle on the asset path, re-decoding the file, for each splash variant it
produces: the full effect trace of such a run is the icon-family writes, all
through the shared handle, followed by the light splash write from a fresh
handle exactly when the kind is the plain Logo, then the dark splash write
from a fresh handle, then the manifest write. -/
theorem c3_handle_reuse_amended (env : Env) (asset : InputAsset) (project : Project)
    (hp : asset.hasPipeline = true) (hd : strTruthy project.iosPath = true) :
    ((asset.kind = AssetKind.icon ∨ asset.kind = AssetKind.notificationIcon ∨
      asset.kind = AssetKind.settingsIcon ∨ asset.kind = AssetKind.spotlightIcon ∨
      asset.kind = AssetKind.splash ∨ asset.kind = AssetKind.splashDark) →
      ∀ e ∈ (generate env asset project).effects,
        writeSrc e = none ∨ writeSrc e = some Handle.pipe) ∧
    ((asset.kind = AssetKind.logo ∨ asset.kind = AssetKind.logoDark) →
      (∀ e ∈ iconEffects project (logoFamily env), writeSrc e = some Handle.pipe) ∧
      (generate env asset project).effects =
        iconEffects project (logoFamily env) ++
          (if asset.kind = AssetKind.logo then
            [Effect.writeImage (Handle.openPath asset.path) (lightSplashDest env project)
              (some (targetLogoWidth env.options asset)) none]
          else []) ++
          [Effect.writeImage (Handle.openPath asset.path) (darkSplashDest env project)
            (some (targetLogoWidth env.options asset)) none,
           Effect.writeManifest
             (updateContentsJsonDark (darkSplashOutput env asset project)
               env.contentsJson)]) := by
  constructor
  · intro hk
    rcases hk with hk | hk | hk | hk | hk | hk
    · simpa [generate, hd, hk, generateIcons] using
        _generateIcons_src asset project (env.templates.filter (fun a => a.kind == AssetKind.icon))
    · simpa [generate, hd, hk, generateNotificationIcons] using
        _generateIcons_src asset project
          (env.templates.filter (fun a => a.kind == AssetKind.notificationIcon))
    · simpa [generate, hd, hk, generateSettingsIcons] using
        _generateIcons_src asset project
          (env.templates.filter (fun a => a.kind == AssetKind.settingsIcon))
    · simpa [generate, hd, hk, generateSpotlightIcons] using
        _generateIcons_src asset project
          (env.templates.filter (fun a => a.kind == AssetKind.spotlightIcon))
    · simpa [generate, hd, hk] using generateSplashes_src env asset project
    · simpa [generate, hd, hk] using generateSplashes_src env asset project
  · intro hk
    refine ⟨iconEffects_src project (logoFamily env), ?_⟩
    rw [generate_logo_eq env asset project hp hd hk]

/-- Closed instance of the C3 amended theorem at a concrete Logo input, where
the fresh-handle splash writes of both variants appear in the trace. -/
theorem c3_handle_reuse_amended_witness :
    (sampleAsset AssetKind.logo).hasPipeline = true ∧
    strTruthy sampleProject.iosPath = true ∧
    (((sampleAsset AssetKind.logo).kind = AssetKind.icon ∨
      (sampleAsset AssetKind.logo).kind = AssetKind.notificationIcon ∨
      (sampleAsset AssetKind.logo).kind = AssetKind.settingsIcon ∨
      (sampleAsset AssetKind.logo).kind = AssetKind.spotlightIcon ∨
      (sampleAsset AssetKind.logo).kind = AssetKind.splash ∨
      (sampleAsset AssetKind.logo).kind = AssetKind.splashDark) →
      ∀ e ∈ (generate sampleEnv (sampleAsset AssetKind.logo) sampleProject).effects,
        writeSrc e = none ∨ writeSrc e = some Handle.pipe) ∧
    (((sampleAsset AssetKind.logo).kind = AssetKind.logo ∨
      (sampleAsset AssetKind.logo).kind = AssetKind.logoDark) →
      (∀ e ∈ iconEffects sampleProject (logoFamily sampleEnv),
        writeSrc e = some Handle.pipe) ∧
      (generate sampleEnv (sampleAsset AssetKind.logo) sampleProject).effects =
        iconEffects sampleProject (logoFamily sampleEnv) ++
          (if (sampleAsset AssetKind.logo).kind = AssetKind.logo then
            [Effect.writeImage (Handle.openPath (sampleAsset AssetKind.logo).path)
              (lightSplashDest sampleEnv sampleProject)
              (some (targetLogoWidth sampleEnv.options (sampleAsset AssetKind.logo))) none]
          else []) ++
          [Effect.writeImage (Handle.openPath (sampleAsset AssetKind.logo).path)
            (darkSplashDest sampleEnv sampleProject)
            (some (targetLogoWidth sampleEnv.options (sampleAsset AssetKind.logo))) none,
           Effect.writeManifest
             (updateContentsJsonDark
               (darkSplashOutput sampleEnv (sampleAsset AssetKind.logo) sampleProject)
               sampleEnv.contentsJson)]) :=
  ⟨rfl, by decide,
    (c3_handle_reuse_amended sampleEnv (sampleAsset AssetKind.logo) sampleProject rfl
      (by decide)).1,
    (c3_handle_reuse_amended sampleEnv (sampleAsset AssetKind.logo) sampleProject rfl
      (by decide)).2⟩

theorem iconOutputs_map_template (asset : InputAsset) (project : Project)
    (icons : List IosOutputAssetTemplate) :
    (iconOutputs asset project icons).map (fun o => o.template) = icons := by
  induction icons with
  | nil => rfl
  | cons a l ih => simpa [iconOutputs] using ih

/-- C4: for every input kind, generate returns exactly one OutputAsset per
template of the subset that the kind selects from the catalog: the templates of
the returned assets are precisely the selected subset, in order, none missing
and none extra. -/
theorem c4_one_output_per_template (env : Env) (asset : InputAsset) (project : Project)
    (hp : asset.hasPipeline = true) (hd : strTruthy project.iosPath = true) :
    ∃ outs, (generate env asset project).result = .ok outs ∧
      outs.map (fun o => o.template) = selectedTemplates env asset.kind := by
  cases hak : asset.kind with
  | logo =>
    refine ⟨iconOutputs asset project (logoFamily env) ++
      (if asset.kind = AssetKind.logo then [lightSplashOutput env asset project] else []) ++
      [darkSplashOutput env asset project], ?_, ?_⟩
    · rw [generate_logo_eq env asset project hp hd (Or.inl hak)]
    · simp [selectedTemplates, lightSplashOutput, darkSplashOutput,
        iconOutputs_map_template, hak]
  | logoDark =>
    refine ⟨iconOutputs asset project (logoFamily env) ++
      (if asset.kind = AssetKind.logo then [lightSplashOutput env asset project] else []) ++
      [darkSplashOutput env asset project], ?_, ?_⟩
    · rw [generate_logo_eq env asset project hp hd (Or.inr hak)]
    · simp [selectedTemplates, lightSplashOutput, darkSplashOutput,
        iconOutputs_map_template, hak]
  | icon =>
    refine ⟨iconOutputs asset project
      (env.templates.filter (fun a => a.kind == AssetKind.icon)), ?_, ?_⟩
    · simp [generate, hd, hak, generateIcons, _generateIcons, hp]
    · simp [selectedTemplates, iconOutputs_map_template]
  | notificationIcon =>
    refine ⟨iconOutputs asset project
      (env.templates.filter (fun a => a.kind == AssetKind.notificationIcon)), ?_, ?_⟩
    · simp [generate, hd, hak, generateNotificationIcons, _generateIcons, hp]
    · simp [selectedTemplates, iconOutputs_map_template]
  | settingsIcon =>
    refine ⟨iconOutputs asset project
      (env.templates.filter (fun a => a.kind == AssetKind.settingsIcon)), ?_, ?_⟩
    · simp [generate, hd, hak, generateSettingsIcons, _generateIcons, hp]
    · simp [selectedTemplates, iconOutputs_map_template]
  | spotlightIcon =>
    refine ⟨iconOutputs asset project
      (env.templates.filter (fun a => a.kind == AssetKind.spotlightIcon)), ?_, ?_⟩
    · simp [generate, hd, hak, generateSpotlightIcons, _generateIcons, hp]
    · simp [selectedTemplates, iconOutputs_map_template]
  | splash =>
    refine ⟨[⟨env.splashLight, asset, [(env.splashLight.name,
      pathJoin [project.iosPath.getD "", IOS_SPLASH_IMAGE_SET_PATH,
        env.splashLight.name])]⟩], ?_, ?_⟩
    · simp [generate, hd, hak, generateSplashes, hp]
    · simp [hak, selectedTemplates]
  | splashDark =>
    refine ⟨[⟨env.splashDark, asset, [(env.splashDark.name,
      pathJoin [project.iosPath.getD "", IOS_SPLASH_IMAGE_SET_PATH,
        env.splashDark.name])]⟩], ?_, ?_⟩
    · simp [generate, hd, hak, generateSplashes, hp]
    · simp [hak, selectedTemplates]
  | other tag =>
    refine ⟨[], ?_, ?_⟩
    · simp [generate, hd, hak]
    · simp [selectedTemplates]

/-- Closed instance of the C4 theorem at a concrete Icon input. -/
theorem c4_one_output_per_template_witness :
    (sampleAsset AssetKind.icon).hasPipeline = true ∧
    strTruthy sampleProject.iosPath = true ∧
    (∃ outs, (generate sampleEnv (sampleAsset AssetKind.icon) sampleProject).result =
        .ok outs ∧
      outs.map (fun o => o.template) =
        selectedTemplates sampleEnv (sampleAsset AssetKind.icon).kind) :=
  ⟨rfl, by decide,
    c4_one_output_per_template sampleEnv (sampleAsset AssetKind.icon) sampleProject rfl
      (by decide)⟩

/-- C6: for every input asset of an unhandled kind, generate returns the empty
list without raising an error, provided the ios directory is resolvable. -/
theorem c6_unhandled_kind_empty (env : Env) (asset : InputAsset) (project : Project)
    (tag : Nat) (hk : asset.kind = AssetKind.other tag)
    (hd : strTruthy project.iosPath = true) :
    generate env asset project = { effects := [], result := .ok [] } := by
  simp [generate, hd, hk]

/-- Closed instance of the C6 theorem at a concrete unhandled kind. -/
theorem c6_unhandled_kind_empty_witness :
    (sampleAsset (AssetKind.other 0)).kind = AssetKind.other 0 ∧
    strTruthy sampleProject.iosPath = true ∧
    generate sampleEnv (sampleAsset (AssetKind.other 0)) sampleProject =
      { effects := [], result := .ok [] } :=
  ⟨rfl, by decide,
    c6_unhandled_kind_empty sampleEnv (sampleAsset (AssetKind.other 0)) sampleProject 0 rfl
      (by decide)⟩

/-- C8: for every input asset of a handled kind whose pipeline handle does not
exist, generate fails with BadPipelineError and performs no write before
failing (the effect trace is empty). -/
theorem c8_no_pipeline_error (env : Env) (asset : InputAsset) (project : Project)
    (hk : asset.kind ∈ [AssetKind.logo, AssetKind.logoDark, AssetKind.icon,
      AssetKind.notificationIcon, AssetKind.settingsIcon, AssetKind.spotlightIcon,
      AssetKind.splash, AssetKind.splashDark])
    (hp : asset.hasPipeline = false) (hd : strTruthy project.iosPath = true) :
    generate env asset project =
      { effects := [], result := .error (.badPipeline "Sharp instance not created") } := by
  simp only [List.mem_cons, List.not_mem_nil, or_false] at hk
  rcases hk with hk | hk | hk | hk | hk | hk | hk | hk <;>
    simp [generate, hd, hk, generateFromLogo, generateIcons, generateNotificationIcons,
      generateSettingsIcons, generateSpotlightIcons, generateSplashes, _generateIcons, hp]

/-- Closed instance of the C8 theorem at a concrete Logo input without a
pipeline handle. -/
theorem c8_no_pipeline_error_witness :
    { sampleAssetNoPipe with kind := AssetKind.logo }.kind ∈ [AssetKind.logo,
      AssetKind.logoDark, AssetKind.icon, AssetKind.notificationIcon,
      AssetKind.settingsIcon, AssetKind.spotlightIcon, AssetKind.splash,
      AssetKind.splashDark] ∧
    { sampleAssetNoPipe with kind := AssetKind.logo }.hasPipeline = false ∧
    strTruthy sampleProject.iosPath = true ∧
    generate sampleEnv { sampleAssetNoPipe with kind := AssetKind.logo } sampleProject =
      { effects := [], result := .error (.badPipeline "Sharp instance not created") } :=
  ⟨by decide, rfl, by decide,
    c8_no_pipeline_error sampleEnv { sampleAssetNoPipe with kind := AssetKind.logo }
      sampleProject (by decide) rfl (by decide)⟩

/-- C9: a Splash input yields exactly one OutputAsset and one file write at the
image-set directory joined with the splash template's name, with no manifest
write; a SplashDark input additionally rewrites the manifest, so the manifest
is registered only for the dark kind. -/
theorem c9_splash_single_output (env : Env) (asset : InputAsset) (project : Project)
    (hp : asset.hasPipeline = true) (hd : strTruthy project.iosPath = true) :
    (asset.kind = AssetKind.splash →
      generate env asset project =
        ⟨[Effect.writeImage Handle.pipe
            (pathJoin [project.iosPath.getD "", IOS_SPLASH_IMAGE_SET_PATH,
              env.splashLight.name])
            env.splashLight.width env.splashLight.height],
          .ok [⟨env.splashLight, asset, [(env.splashLight.name,
            pathJoin [project.iosPath.getD "", IOS_SPLASH_IMAGE_SET_PATH,
              env.splashLight.name])]⟩]⟩) ∧
    (asset.kind = AssetKind.splashDark →
      generate env asset project =
        ⟨[Effect.writeImage Handle.pipe
            (pathJoin [project.iosPath.getD "", IOS_SPLASH_IMAGE_SET_PATH,
              env.splashDark.name])
            env.splashDark.width env.splashDark.height,
          Effect.writeManifest (updateContentsJsonDark
            ⟨env.splashDark, asset, [(env.splashDark.name,
              pathJoin [project.iosPath.getD "", IOS_SPLASH_IMAGE_SET_PATH,
                env.splashDark.name])]⟩ env.contentsJson)],
          .ok [⟨env.splashDark, asset, [(env.splashDark.name,
            pathJoin [project.iosPath.getD "", IOS_SPLASH_IMAGE_SET_PATH,
              env.splashDark.name])]⟩]⟩) := by
  constructor <;> intro hk <;> simp [generate, hd, hk, generateSplashes, hp]

/-- Closed instance of the C9 theorem at a concrete Splash input. -/
theorem c9_splash_single_output_witness :
    (sampleAsset AssetKind.splash).hasPipeline = true ∧
    strTruthy sampleProject.iosPath = true ∧
    ((sampleAsset AssetKind.splash).kind = AssetKind.splash →
      generate sampleEnv (sampleAsset AssetKind.splash) sampleProject =
        ⟨[Effect.writeImage Handle.pipe
            (pathJoin [sampleProject.iosPath.getD "", IOS_SPLASH_IMAGE_SET_PATH,
              sampleEnv.splashLight.name])
            sampleEnv.splashLight.width sampleEnv.splashLight.height],
          .ok [⟨sampleEnv.splashLight, sampleAsset AssetKind.splash,
            [(sampleEnv.splashLight.name,
              pathJoin [sampleProject.iosPath.getD "", IOS_SPLASH_IMAGE_SET_PATH,
                sampleEnv.splashLight.name])]⟩]⟩) :=
  ⟨rfl, by decide,
    (c9_splash_single_output sampleEnv (sampleAsset AssetKind.splash) sampleProject rfl
      (by decide)).1⟩

end CapacitorAssets
